import Mathlib

/-!
Verification of the `droidrun-android-world` evaluation harness.

The definitions below are a shallow embedding of the Python sources:

* `src/eval/tools.py`        — the `AndroidWorldTools` adapter between the
  droidrun agent and the AndroidWorld environment client;
* `src/eval/android_world_bench.py` — the benchmark driver (`run`);
* `src/eval/tracker.py`      — on-disk result tracking.

Machine-level effects are made explicit: the environment client is modelled
by a flag saying whether `execute_action` raises a transport error, raised
Python exceptions become `Except` values, and the file system is a map from
paths to written records.
-/

namespace DroidrunAW

/-- A transport/protocol error raised by the environment client
(`AndroidEnvClient.execute_action`). -/
inductive PyErr where
  | transport
  | valueError (msg : String)
  deriving DecidableEq, Repr

/-- Bounding box of a UI element (`representation_utils.UIElement.bbox_pixels`). -/
structure BBox where
  x_min : Int
  y_min : Int
  x_max : Int
  y_max : Int
  deriving DecidableEq, Repr

/-- The slice of `representation_utils.UIElement` that `tap_by_index` reads:
the optional pixel bounding box. -/
structure UIElement where
  bbox_pixels : Option BBox
  deriving DecidableEq, Repr

/-- Whether the environment client raises on `execute_action`.  `true` means
the call raises a transport/protocol exception, `false` means it succeeds.
This is the only behaviour of the client the adapter methods observe. -/
abbrev ClientRaises := Bool

/-- `AndroidWorldTools.tap_by_index` from `src/eval/tools.py` (lines 54-72).
Returns the boolean result together with the number of
`client.execute_action` calls issued (0 or 1), so that "no network request
is made" is observable.  The whole body is wrapped in `try/except`, and the
`except` branch returns `False`, so the function never raises. -/
def tap_by_index (cache : List UIElement) (raises : ClientRaises) (index : Int) :
    Bool × Nat :=
  if index < 0 ∨ index ≥ (cache.length : Int) then
    (false, 0)
  else
    match cache.get? index.toNat with
    | none => (false, 0)
    | some el =>
      match el.bbox_pixels with
      | none => (false, 0)
      | some _ =>
        -- `client.execute_action(action)`: one network call; an exception is
        -- caught by the surrounding try/except and converted to `False`.
        if raises then (false, 1) else (true, 1)

/-- The inner helper `get_swipe_direction` of `AndroidWorldTools.swipe`
(`src/eval/tools.py` lines 92-106): reduces the two endpoints to one of the
four scroll directions. -/
def get_swipe_direction (start_x start_y end_x end_y : Int) : String :=
  let dx := end_x - start_x
  let dy := end_y - start_y
  if |dx| > |dy| then
    -- Horizontal swipe
    if dx > 0 then "right" else "left"
  else
    -- Vertical swipe
    if dy < 0 then "down" else "up"

/-- `AndroidWorldTools.back` (`src/eval/tools.py` lines 133-142): sends a
`navigate_back` action; the `try/except` converts an exception to `False`. -/
def back (raises : ClientRaises) : Bool :=
  if raises then false else true

/-- `AndroidWorldTools.press_key` (`src/eval/tools.py` lines 144-160).
Keycode 3 delegates to `back()` (which catches exceptions).  Every other
keycode builds a `press_keyboard` action and calls
`client.execute_action` with NO surrounding `try/except`, so a raised
exception propagates: the result type is `Except PyErr Bool`. -/
def press_key (raises : ClientRaises) (keycode : Int) : Except PyErr Bool :=
  if keycode = 3 then
    Except.ok (back raises)
  else
    -- both the `keycode == 66` branch and the `else` branch build the same
    -- `press_keyboard` action; the execute_action call is unguarded.
    if raises then Except.error PyErr.transport else Except.ok true

/-- A Python value passed to `remember`: either a `str` or some non-string
value (covering the `isinstance(information, str)` check). -/
inductive PyValue where
  | str (s : String)
  | nonStr
  deriving DecidableEq, Repr

/-- Python `str.strip()` on a list of characters: drop whitespace from both
ends. -/
def stripChars (l : List Char) : List Char :=
  ((l.dropWhile Char.isWhitespace).reverse.dropWhile Char.isWhitespace).reverse

/-- Python `information.strip()`: whitespace removed from both ends of the
string. -/
def strip (s : String) : String :=
  ⟨stripChars s.data⟩

/-- The upper bound `max_memory_items = 10` in `AndroidWorldTools.remember`. -/
def max_memory_items : Nat := 10

/-- `AndroidWorldTools.remember` (`src/eval/tools.py` lines 195-205), acting
on the `self.memory` list.  Guard: `if not information or not
isinstance(information, str)` — a non-string value or the empty string is
rejected (for a non-string `v`, either `not v` is truthy or the isinstance
check fails, so both disjuncts collapse to rejection).  Otherwise the
stripped text is appended and the list truncated to its last
`max_memory_items` entries. -/
def remember (memory : List String) (information : PyValue) :
    List String × String :=
  match information with
  | PyValue.nonStr => (memory, "Error: Please provide valid information to remember.")
  | PyValue.str s =>
    if s = "" then
      (memory, "Error: Please provide valid information to remember.")
    else
      let m := memory ++ [strip s]
      let m := if m.length > max_memory_items then m.drop (m.length - max_memory_items) else m
      (m, "Remembered: " ++ s)

/-- Folding `remember` over a sequence of inputs, discarding the returned
messages: the memory contents after a sequence of `remember` calls. -/
def run_remember (memory : List String) (inputs : List PyValue) : List String :=
  inputs.foldl (fun m v => (remember m v).1) memory

/-- The note a `remember` input contributes to memory, if accepted:
non-empty strings contribute their stripped form. -/
def accepted_note : PyValue → Option String
  | PyValue.nonStr => none
  | PyValue.str s => if s = "" then none else some (strip s)

/-- The completion-related fields of `AndroidWorldTools` set in `__init__`
(`src/eval/tools.py` lines 17-19): `self.success`, `self.reason`,
`self.finished`. -/
structure ToolState where
  success : Option Bool
  reason : Option String
  finished : Bool
  deriving DecidableEq, Repr

/-- The state `AndroidWorldTools.__init__` establishes. -/
def initToolState : ToolState :=
  { success := none, reason := none, finished := false }

/-- `AndroidWorldTools.complete` (`src/eval/tools.py` lines 219-233).  The
returned pair is the adapter state after the call (mutations happen in
source order, so assignments before a `raise` survive it) and either the
raised `ValueError` or the returned value `self.finished`. -/
def complete (s : ToolState) (success : Bool) (reason : String) :
    ToolState × Except PyErr Bool :=
  if success then
    let s := { s with success := some true,
                      reason := some (if reason = "" then "Task completed successfully." else reason),
                      finished := true }
    (s, Except.ok s.finished)
  else
    -- `self.success = False` executes before the reason check.
    let s := { s with success := some false }
    if reason = "" then
      (s, Except.error (PyErr.valueError "Reason for failure is required if success is False."))
    else
      let s := { s with reason := some reason, finished := true }
      (s, Except.ok s.finished)

/-! ### `src/eval/android_world_bench.py`: the per-task agent budget -/

/-- `max_steps = task_complexity * max_steps_multiplier`
(`src/eval/android_world_bench.py` line 109). -/
def max_steps (task_complexity max_steps_multiplier : Int) : Int :=
  task_complexity * max_steps_multiplier

/-- `max_retries = max_steps / 10` (`src/eval/android_world_bench.py` line
110).  Python `/` is true division producing a float; modelled as an exact
rational. -/
def max_retries (task_complexity max_steps_multiplier : Int) : ℚ :=
  (max_steps task_complexity max_steps_multiplier : ℚ) / 10

/-- `timeout = task_complexity * 300` (`src/eval/android_world_bench.py`
line 111). -/
def timeout_seconds (task_complexity : Int) : Int :=
  task_complexity * 300

/-! ### `src/eval/tracker.py`: task results and their persistence

`TaskResult` keeps the fields the claims are about; the wall-clock fields
(`timestamp`, `execution_time`) and the always-cleared `logs` /
`trajectory` / `trajectory_stats` fields are omitted. -/

/-- The `TaskResult` dataclass of `src/eval/tracker.py` (lines 60-77),
restricted to its time-independent fields.  `success` is the float
benchmark score, modelled as a rational. -/
structure TaskResult where
  task_id : Int
  task_name : String
  task_idx : Int
  task_description : String
  max_steps : Int
  success : ℚ := 0
  agent_success : Bool := false
  steps_taken : Int := 0
  reasoning : Bool := false
  final_thought : String := ""
  error : Option String := none
  deriving DecidableEq, Repr

/-- `track_task` (`src/eval/tracker.py` lines 90-97): a fresh `TaskResult`
with `task_id=0` and default outcome fields. -/
def track_task (task_name : String) (task_idx : Int) (goal : String)
    (max_steps : Int) : TaskResult :=
  { task_id := 0, task_name := task_name, task_idx := task_idx,
    task_description := goal, max_steps := max_steps }

/-- The `agent_result` dictionary consumed by `write_task_result`: keys
`"success"`, `"steps"`, `"reason"`. -/
structure AgentResult where
  success : Bool
  steps : Int
  reason : String
  deriving DecidableEq, Repr

/-- `OUTPUT_DIR = "eval_results"` (`src/eval/tracker.py` line 80). -/
def OUTPUT_DIR : String := "eval_results"

/-- `task_name.replace(' ', '_')` in `get_task_result_path`: the
single-character substring replacement is a character map. -/
def underscored (task_name : String) : String :=
  ⟨task_name.data.map (fun c => if c = ' ' then '_' else c)⟩

/-- `get_task_result_path` (`src/eval/tracker.py` lines 83-87): the result
directory `eval_results/<task_name with spaces replaced by underscores>`.
It takes the task name only — no instance index. -/
def get_task_result_path (task_name : String) : String :=
  OUTPUT_DIR ++ "/" ++ underscored task_name

/-- `dpath / "result.json"` in `write_task_result` (`src/eval/tracker.py`
line 132). -/
def result_file_path (task_name : String) : String :=
  get_task_result_path task_name ++ "/result.json"

/-- The file system as seen by the tracker: a map from paths to the last
`TaskResult` serialized there.  `open(fpath, "w")` + `json.dump` replaces
the previous content wholesale. -/
def FileSystem : Type := String → Option TaskResult

/-- Writing a file in `"w"` mode: the path now maps to the new record,
every other path is untouched. -/
def fs_write (fs : FileSystem) (path : String) (tr : TaskResult) : FileSystem :=
  fun p => if p = path then some tr else fs p

/-- The in-place field updates `write_task_result` performs on the
`TaskResult` (`src/eval/tracker.py` lines 100-129): `success := score`;
when an `agent_result` dict is given, `agent_success`, `steps_taken` and
`final_thought` come from its `"success"`, `"steps"` and `"reason"` keys;
when an `error` is given it is stored; `reasoning := agent.reasoning`. -/
def update_task_result (tr : TaskResult) (agent_reasoning : Bool) (score : ℚ)
    (agent_result : Option AgentResult) (error : Option String) : TaskResult :=
  let tr := { tr with success := score }
  let tr :=
    match agent_result with
    | some ar =>
      { tr with agent_success := ar.success, steps_taken := ar.steps,
                final_thought := ar.reason }
    | none => tr
  let tr :=
    match error with
    | some e => { tr with error := some e }
    | none => tr
  { tr with reasoning := agent_reasoning }

/-- `write_task_result` (`src/eval/tracker.py` lines 100-138): update the
record, then overwrite `eval_results/<name>/result.json` with it.  Returns
the updated record and the file system after the write. -/
def write_task_result (fs : FileSystem) (tr : TaskResult) (agent_reasoning : Bool)
    (score : ℚ) (agent_result : Option AgentResult) (error : Option String) :
    TaskResult × FileSystem :=
  let r := update_task_result tr agent_reasoning score agent_result error
  (r, fs_write fs (result_file_path r.task_name) r)

/-- The `except WorkflowTimeoutError` branch of `AndroidWorldBenchmark.run`
(`src/eval/android_world_bench.py` lines 183-198): `env_score` is the value
`self.env.get_task_score(task_name, task_idx)` returns at that moment, and
the synthesized `agent_result` dict carries `success=False`,
`steps=agent.step_counter` and the interpolated timeout message. -/
def handle_timeout (fs : FileSystem) (task_result : TaskResult)
    (agent_reasoning : Bool) (agent_step_counter : Int) (timeout : Int)
    (env_score : ℚ) : TaskResult × FileSystem :=
  write_task_result fs task_result agent_reasoning env_score
    (some { success := false, steps := agent_step_counter,
            reason := "Timeout after " ++ toString timeout ++ " seconds" })
    none

/-! ## Helper lemmas -/

/-- The truncation step of `remember` is "keep the last
`max_memory_items` entries". -/
theorem memory_truncate_eq_rtake (m : List String) :
    (if m.length > max_memory_items then m.drop (m.length - max_memory_items) else m) =
      m.rtake max_memory_items := by
  unfold List.rtake
  split
  · rfl
  · rename_i h
    rw [Nat.sub_eq_zero_of_le (Nat.le_of_not_lt h), List.drop_zero]

/-- An accepted `remember` call appends the stripped note and keeps the last
`max_memory_items` entries. -/
theorem remember_accepted (memory : List String) (s : String) (h : ¬ s = "") :
    remember memory (PyValue.str s) =
      ((memory ++ [strip s]).rtake max_memory_items, "Remembered: " ++ s) := by
  simp only [remember, h, if_false, memory_truncate_eq_rtake]

/-- `rtake` never returns more than `n` elements. -/
theorem length_rtake_le (l : List α) (n : Nat) : (l.rtake n).length ≤ n := by
  unfold List.rtake
  rw [List.length_drop]
  omega

/-- Keeping the last `n` before appending more does not change the last `n`
of the whole. -/
theorem rtake_append_rtake (a b : List α) (n : Nat) :
    (a.rtake n ++ b).rtake n = (a ++ b).rtake n := by
  simp only [List.rtake_eq_reverse_take_reverse, List.reverse_append, List.reverse_reverse]
  congr 1
  rw [List.take_append_eq_append_take, List.take_append_eq_append_take, List.take_take,
    Nat.min_eq_left (Nat.sub_le _ _)]

/-- Running `remember` over a sequence of inputs from a state holding at
most `max_memory_items` notes leaves exactly the last `max_memory_items` of
the prior notes followed by the accepted (stripped) notes. -/
theorem run_remember_eq (inputs : List PyValue) :
    ∀ memory : List String, memory.length ≤ max_memory_items →
      run_remember memory inputs =
        (memory ++ inputs.filterMap accepted_note).rtake max_memory_items := by
  induction inputs with
  | nil =>
    intro memory h
    simp only [run_remember, List.foldl_nil, List.filterMap_nil, List.append_nil]
    unfold List.rtake
    rw [Nat.sub_eq_zero_of_le h, List.drop_zero]
  | cons v rest ih =>
    intro memory h
    have step : run_remember memory (v :: rest) = run_remember (remember memory v).1 rest := rfl
    rw [step]
    cases v with
    | nonStr =>
      have h1 : (remember memory PyValue.nonStr).1 = memory := rfl
      have h2 : List.filterMap accepted_note (PyValue.nonStr :: rest) =
          List.filterMap accepted_note rest := rfl
      rw [h1, h2, ih memory h]
    | str s =>
      by_cases hs : s = ""
      · subst hs
        have h1 : (remember memory (PyValue.str "")).1 = memory := rfl
        have h2 : List.filterMap accepted_note (PyValue.str "" :: rest) =
            List.filterMap accepted_note rest := rfl
        rw [h1, h2, ih memory h]
      · have h2 : List.filterMap accepted_note (PyValue.str s :: rest) =
            strip s :: List.filterMap accepted_note rest := by
          simp [List.filterMap_cons, accepted_note, hs]
        have h1 : (remember memory (PyValue.str s)).1 =
            (memory ++ [strip s]).rtake max_memory_items := by
          rw [remember_accepted memory s hs]
        rw [h1, ih _ (length_rtake_le _ _), rtake_append_rtake, h2, List.append_assoc,
          List.singleton_append]

/-- The last note after an accepted `remember` is the stripped input. -/
theorem rtake_concat_getLast (l : List String) (x : String) :
    ((l ++ [x]).rtake max_memory_items).getLast? = some x := by
  have : max_memory_items = 9 + 1 := rfl
  rw [this, List.rtake_concat_succ, List.getLast?_concat]

/-- `update_task_result` never changes `task_name`. -/
theorem update_task_result_name (tr : TaskResult) (agent_reasoning : Bool) (score : ℚ)
    (agent_result : Option AgentResult) (error : Option String) :
    (update_task_result tr agent_reasoning score agent_result error).task_name =
      tr.task_name := by
  unfold update_task_result
  cases agent_result <;> cases error <;> rfl

/-! ## Claims -/

/-- C1 (counterexample): the claim "press_key catches transport exceptions
for every keycode and returns false" is false: with a raising client,
`press_key(66)` propagates the transport error instead of returning
`false`. -/
theorem C1_counterexample :
    press_key true 66 = Except.error PyErr.transport ∧
    ¬ press_key true 66 = Except.ok false :=
  ⟨rfl, fun h => Except.noConfusion h⟩

/-- C1 (amended): only keycode 3 — which delegates to `back()` — converts a
transport exception into `false`; every other keycode issues the
`execute_action` call outside any `try/except`, so the exception
propagates.  When the client does not raise, every keycode returns
`true`. -/
theorem C1_press_key_exception_propagation (keycode : Int) :
    (keycode = 3 → press_key true keycode = Except.ok false) ∧
    (¬ keycode = 3 → press_key true keycode = Except.error PyErr.transport) ∧
    press_key false keycode = Except.ok true := by
  refine ⟨fun h => ?_, fun h => ?_, ?_⟩
  · simp [press_key, back, h]
  · simp [press_key, back, h]
  · unfold press_key back
    split <;> rfl

/-- C1 (witness): keycode 66 with a raising client propagates the error. -/
theorem C1_press_key_exception_propagation_witness :
    press_key true 66 = Except.error PyErr.transport :=
  (C1_press_key_exception_propagation 66).2.1 (by decide)

/-- C2 (counterexample): at endpoints (0,0) → (1,1) we have |dx| ≥ |dy|, so
the claim demands a horizontal direction, but `get_swipe_direction` returns
the vertical "up": the code's dominant-axis test is strict (`|dx| > |dy|`),
not `≥`. -/
theorem C2_counterexample :
    |(1 : Int) - 0| ≥ |(1 : Int) - 0| ∧
    get_swipe_direction 0 0 1 1 = "up" ∧
    ¬ get_swipe_direction 0 0 1 1 = "right" ∧
    ¬ get_swipe_direction 0 0 1 1 = "left" := by
  refine ⟨le_refl _, by decide, by decide, by decide⟩

/-- C2 (amended): the gesture is reduced by dominant axis with a STRICT
comparison: `|dx| > |dy|` picks horizontal (right if dx > 0, else left);
otherwise (`|dx| ≤ |dy|`, ties included) vertical, `down` when dy < 0 and
`up` otherwise. -/
theorem C2_swipe_dominant_axis (start_x start_y end_x end_y : Int) :
    (|end_x - start_x| > |end_y - start_y| →
      get_swipe_direction start_x start_y end_x end_y =
        (if end_x - start_x > 0 then "right" else "left")) ∧
    (|end_x - start_x| ≤ |end_y - start_y| →
      get_swipe_direction start_x start_y end_x end_y =
        (if end_y - start_y < 0 then "down" else "up")) := by
  constructor
  · intro h
    simp only [get_swipe_direction]
    rw [if_pos h]
  · intro h
    simp only [get_swipe_direction]
    rw [if_neg (not_lt.mpr h)]

/-- C2 (witness): (0,0) → (5,1) is dominantly horizontal with dx > 0. -/
theorem C2_swipe_dominant_axis_witness :
    get_swipe_direction 0 0 5 1 = (if (5 : Int) - 0 > 0 then "right" else "left") :=
  (C2_swipe_dominant_axis 0 0 5 1).1 (by decide)

/-- C3: for every index outside [0, cache length), `tap_by_index` returns
`false` and performs zero `execute_action` calls, whatever the client would
do. -/
theorem C3_tap_by_index_out_of_range (cache : List UIElement) (raises : ClientRaises)
    (index : Int) (h : index < 0 ∨ index ≥ (cache.length : Int)) :
    tap_by_index cache raises index = (false, 0) := by
  unfold tap_by_index
  rw [if_pos h]

/-- C3 (witness): index 5 against an empty cache. -/
theorem C3_tap_by_index_out_of_range_witness :
    tap_by_index [] false 5 = (false, 0) :=
  C3_tap_by_index_out_of_range [] false 5 (by decide)

/-- C4: (1) after any insertion into a memory holding at most 10 notes, the
memory still holds at most 10 notes; (2) running any sequence of `remember`
calls from the empty memory leaves exactly the last 10 accepted (stripped)
notes, in insertion order; (3) the empty string and non-string inputs are
rejected with an error message and do not mutate the list. -/
theorem C4_memory_last_ten_invariant :
    (∀ (memory : List String) (v : PyValue), memory.length ≤ max_memory_items →
      ((remember memory v).1).length ≤ max_memory_items) ∧
    (∀ inputs : List PyValue,
      run_remember [] inputs =
        (inputs.filterMap accepted_note).rtake max_memory_items) ∧
    (∀ memory : List String,
      remember memory (PyValue.str "") =
        (memory, "Error: Please provide valid information to remember.") ∧
      remember memory PyValue.nonStr =
        (memory, "Error: Please provide valid information to remember.")) := by
  refine ⟨?_, ?_, ?_⟩
  · intro memory v h
    cases v with
    | nonStr => exact h
    | str s =>
      by_cases hs : s = ""
      · subst hs; exact h
      · rw [remember_accepted memory s hs]
        exact length_rtake_le _ _
  · intro inputs
    have := run_remember_eq inputs [] (by simp [max_memory_items])
    simpa using this
  · intro memory
    exact ⟨rfl, rfl⟩

/-- C4 (witness): inserting into a one-note memory keeps the bound; twelve
accepted notes leave exactly the last ten. -/
theorem C4_memory_last_ten_invariant_witness :
    ((remember ["a"] (PyValue.str "b")).1).length ≤ max_memory_items ∧
    run_remember []
        ((List.range 12).map (fun i => PyValue.str (toString i))) =
      (((List.range 12).map (fun i => PyValue.str (toString i))).filterMap
          accepted_note).rtake max_memory_items :=
  ⟨C4_memory_last_ten_invariant.1 ["a"] (PyValue.str "b") (by decide),
   C4_memory_last_ten_invariant.2.1 _⟩

/-- C5: `complete(success=False, reason="")` raises a `ValueError` instead
of recording a finished empty-reason failure: the returned control value is
the error, and `finished` keeps its prior value. -/
theorem C5_complete_empty_reason_raises (s : ToolState) :
    (complete s false "").2 =
      Except.error (PyErr.valueError "Reason for failure is required if success is False.") ∧
    ((complete s false "").1).finished = s.finished := by
  constructor <;> rfl

/-- C6: the agent budget derived from task complexity `c ≥ 1` and step
multiplier `m` satisfies exactly `max_steps = c*m`,
`max_retries = (c*m)/10` (exact division) and
`timeout_seconds = c*300`. -/
theorem C6_budget_arithmetic (c m : Int) (h : 1 ≤ c) :
    max_steps c m = c * m ∧
    max_retries c m = ((c : ℚ) * (m : ℚ)) / 10 ∧
    timeout_seconds c = c * 300 := by
  refine ⟨rfl, ?_, rfl⟩
  unfold max_retries max_steps
  push_cast
  ring

/-- C6 (witness): complexity 2 with multiplier 15 gives 30 steps, 3 retries
and 600 seconds. -/
theorem C6_budget_arithmetic_witness :
    max_steps 2 15 = 2 * 15 ∧
    max_retries 2 15 = (((2 : Int) : ℚ) * ((15 : Int) : ℚ)) / 10 ∧
    timeout_seconds 2 = 2 * 300 :=
  C6_budget_arithmetic 2 15 (by decide)

/-- C7: when the agent run times out, the recorded outcome has
`agent_success = false`, `final_thought` equal to the interpolated
"Timeout after <timeout> seconds" message, and `success` equal to the score
the environment reports at that moment. -/
theorem C7_timeout_outcome (fs : FileSystem) (tr : TaskResult) (agent_reasoning : Bool)
    (steps t : Int) (env_score : ℚ) :
    ((handle_timeout fs tr agent_reasoning steps t env_score).1).agent_success = false ∧
    ((handle_timeout fs tr agent_reasoning steps t env_score).1).final_thought =
      "Timeout after " ++ toString t ++ " seconds" ∧
    ((handle_timeout fs tr agent_reasoning steps t env_score).1).success = env_score := by
  refine ⟨rfl, rfl, rfl⟩

/-- C8: the result path is `eval_results/<task_name with spaces replaced by
underscores>/result.json`, keyed by task name only; writing two records
with the same task name in sequence leaves the second record at that path
(overwrite, not append). -/
theorem C8_same_name_overwrites (fs : FileSystem) (tr1 tr2 : TaskResult)
    (re1 re2 : Bool) (sc1 sc2 : ℚ) (ar1 ar2 : Option AgentResult)
    (e1 e2 : Option String) (hname : tr1.task_name = tr2.task_name) :
    result_file_path tr1.task_name =
      "eval_results" ++ "/" ++ underscored tr1.task_name ++ "/result.json" ∧
    ((write_task_result ((write_task_result fs tr1 re1 sc1 ar1 e1).2) tr2 re2 sc2 ar2 e2).2)
        (result_file_path tr1.task_name) =
      some ((write_task_result ((write_task_result fs tr1 re1 sc1 ar1 e1).2)
        tr2 re2 sc2 ar2 e2).1) := by
  constructor
  · rfl
  · simp only [write_task_result, fs_write]
    rw [update_task_result_name, ← hname, if_pos rfl]

/-- C8 (witness): two instances of the task name "task name" (indices 0 and
1) written in sequence over an empty file system: the stored record is the
second one. -/
theorem C8_same_name_overwrites_witness :
    ((write_task_result
        ((write_task_result (fun _ => none)
            { task_id := 0, task_name := "task name", task_idx := 0,
              task_description := "g", max_steps := 5 } true 0 none none).2)
        { task_id := 0, task_name := "task name", task_idx := 1,
          task_description := "g", max_steps := 5 } false 1 none none).2)
        (result_file_path "task name") =
      some ((write_task_result
        ((write_task_result (fun _ => none)
            { task_id := 0, task_name := "task name", task_idx := 0,
              task_description := "g", max_steps := 5 } true 0 none none).2)
        { task_id := 0, task_name := "task name", task_idx := 1,
          task_description := "g", max_steps := 5 } false 1 none none).1) :=
  (C8_same_name_overwrites (fun _ => none)
    { task_id := 0, task_name := "task name", task_idx := 0,
      task_description := "g", max_steps := 5 }
    { task_id := 0, task_name := "task name", task_idx := 1,
      task_description := "g", max_steps := 5 }
    true false 0 1 none none none none rfl).2

/-- C9: the failing-complete error path mutates state partially: starting
from a not-finished adapter, `complete(False, "")` raises, and afterwards
`success` has become `some false` while `finished` and `reason` keep their
prior values. -/
theorem C9_complete_partial_mutation (s : ToolState) (h : s.finished = false) :
    ((complete s false "").1).success = some false ∧
    ((complete s false "").1).finished = false ∧
    ((complete s false "").1).reason = s.reason ∧
    (complete s false "").2 =
      Except.error (PyErr.valueError "Reason for failure is required if success is False.") :=
  ⟨rfl, h, rfl, rfl⟩

/-- C9 (witness): the freshly initialized adapter state. -/
theorem C9_complete_partial_mutation_witness :
    ((complete initToolState false "").1).success = some false ∧
    ((complete initToolState false "").1).finished = false ∧
    ((complete initToolState false "").1).reason = initToolState.reason ∧
    (complete initToolState false "").2 =
      Except.error (PyErr.valueError "Reason for failure is required if success is False.") :=
  C9_complete_partial_mutation initToolState rfl

/-- C10: `remember` accepts any non-empty string — all-whitespace inputs
included — and stores its stripped form, so the whitespace-only input " "
puts the empty string into memory while reporting success. -/
theorem C10_remember_stores_stripped (s : String) (h : ¬ s = "") :
    (∀ memory : List String,
      ((remember memory (PyValue.str s)).1).getLast? = some (strip s) ∧
      (remember memory (PyValue.str s)).2 = "Remembered: " ++ s) ∧
    remember [] (PyValue.str " ") = ([""], "Remembered:  ") := by
  constructor
  · intro memory
    rw [remember_accepted _ _ h]
    exact ⟨rtake_concat_getLast _ _, rfl⟩
  · decide

/-- C10 (witness): the whitespace-only note " " is stored as the empty
string with a success message. -/
theorem C10_remember_stores_stripped_witness :
    ((remember [] (PyValue.str " ")).1).getLast? = some (strip " ") ∧
    (remember [] (PyValue.str " ")).2 = "Remembered: " ++ " " :=
  (C10_remember_stores_stripped " " (by decide)).1 []

end DroidrunAW
